import Mathlib

/-!
Shallow embedding of the Weirdhost renewal scripts (`weirdhost.py` and
`renew.py`) and proofs about the properties stated in the repository's
specification.

The embedding follows the source code: browser/page interactions are
abstracted as oracles (functions from selector strings to element data or
to an `Except` value modelling a raised exception), and every piece of
pure logic (string parsing, report formatting, outcome classification,
the run loop, exit-code computation, the Cloudflare wait loop) is
translated statement by statement from the Python source.
-/

/-! ## Python-style string primitives used by both scripts -/

/-- Python `s.strip(chars)` on a character list: drop characters matching
`p` from both ends. -/
def pyStripChars (p : Char → Bool) (s : List Char) : List Char :=
  ((s.dropWhile p).reverse.dropWhile p).reverse

/-- Python `s.split(sep)` (no maxsplit) on a character list.
`"".split(sep) = [""]`, as in Python. -/
def pySplitChar (sep : Char) : List Char → List (List Char)
  | [] => [[]]
  | c :: rest =>
    if c = sep then [] :: pySplitChar sep rest
    else
      match pySplitChar sep rest with
      | [] => [[c]]
      | h :: t => (c :: h) :: t

/-- Python `s.split(sep, 1)`: the part before the first separator, and
(if a separator occurs) the remainder after it. -/
def pySplitOnce (sep : Char) : List Char → List Char × Option (List Char)
  | [] => ([], none)
  | c :: rest =>
    if c = sep then ([], some rest)
    else (c :: (pySplitOnce sep rest).1, (pySplitOnce sep rest).2)

/-- Does `s` start with `t`? -/
def leadsWith : List Char → List Char → Bool
  | [], _ => true
  | _ :: _, [] => false
  | a :: as, b :: bs => a = b && leadsWith as bs

/-- Does the haystack contain `t` as a contiguous segment?  Models the
Python `t in s` substring test. -/
def containsSeg (t : List Char) : List Char → Bool
  | [] => t.isEmpty
  | c :: rest => leadsWith t (c :: rest) || containsSeg t rest

/-- Python `needle in hay` for strings. -/
def pyIn (needle hay : String) : Bool :=
  containsSeg needle.data hay.data

/-- Python `s[:n]`. -/
def pyTruncate (n : Nat) (s : String) : String :=
  String.mk (s.data.take n)

/-- Python `s.lower()` (ASCII case folding, which covers every cased
character appearing in the scripts' keyword lists). -/
def pyLower (s : String) : String :=
  String.mk (s.data.map Char.toLower)

/-- `WEIRDHOST_SERVER_URLS` parsing, identical in both scripts:
`[u.strip() for u in s.split(',') if u.strip()]`. -/
def parse_server_list (s : String) : List String :=
  (((pySplitChar ',' s.data).map (pyStripChars Char.isWhitespace)).filter
      (fun u => !u.isEmpty)).map String.mk

/-- Server identifier derivation, identical in both scripts:
`url.strip('/').split('/')[-1]`. -/
def sid (u : String) : String :=
  String.mk ((pySplitChar '/' (pyStripChars (fun c => c = '/') u.data)).getLastD [])

/-! ## Status constants of `weirdhost.py` -/

def STATUS_SUCCESS : String := "success"

def STATUS_ALREADY_RENEWED : String := "already_renewed"

def STATUS_NO_BUTTON : String := "no_button_found"

def STATUS_LOGIN_FAILED : String := "login_failed"

def STATUS_LOGIN_LOST : String := "login_lost_on_server"

def STATUS_CF_BLOCKED : String := "cf_blocked"

def STATUS_RUNTIME_ERROR : String := "runtime_error"

def STATUS_NAV_FAILED : String := "nav_failed"

def STATUS_NO_SERVERS : String := "no_servers"

def CF_WAIT_TIMEOUT : Nat := 120

/-! ## `weirdhost.py` — `_detect_click_result`

A feedback page is abstracted as an oracle from a selector string to
`Except Unit Bool`: `Except.ok true` means the selector's locator has a
positive count, its first element is visible and its text could be read;
`Except.ok false` means the marker is absent; `Except.error ()` means one
of those playwright calls raised (the code's per-selector `except`
swallows it and moves on to the next selector). -/

def success_selectors : List String :=
  [".swal2-success", ".toast-success", ".alert-success",
   "div:has-text(\"성공\")", "div:has-text(\"success\")", "div:has-text(\"완료\")"]

def already_selectors : List String :=
  ["div:has-text(\"이미\")", "div:has-text(\"already\")", ".swal2-warning"]

def error_selectors : List String :=
  [".swal2-error", ".toast-error", ".alert-danger",
   "div:has-text(\"실패\")", "div:has-text(\"error\")"]

/-- Scan one marker category's selector list; a selector whose inspection
raises is skipped, and the first selector observed present wins. -/
def checkSelectors (page : String → Except Unit Bool) : List String → Bool
  | [] => false
  | s :: rest =>
    match page s with
    | Except.ok true => true
    | _ => checkSelectors page rest

/-- `WeirdhostRenew._detect_click_result`: success markers first, then
"already renewed" markers, then error markers; if nothing is detected the
code logs that no clear feedback appeared and returns success. -/
def detect_click_result (page : String → Except Unit Bool) : String :=
  if checkSelectors page success_selectors then STATUS_SUCCESS
  else if checkSelectors page already_selectors then STATUS_ALREADY_RENEWED
  else if checkSelectors page error_selectors then STATUS_RUNTIME_ERROR
  else STATUS_SUCCESS

/-! ## `renew.py` — button search, result analysis, per-target processing

In `RenewBot.process_server` the page is abstracted as an oracle from a
button text (the `txt` interpolated into `button:has-text('{txt}')`) to
the list of matched elements, each carrying its `is_visible()` and
`is_enabled()` answers. -/

structure RBtn where
  visible : Bool
  enabled : Bool

def target_texts : List String := ["시간 추가", "시간추가", "Renew", "Extend"]

/-- Candidate elements in scan order: texts in list order, and for each
text the locator's elements in document order (`loc.nth(i)`). -/
def rCandidates (page : String → List RBtn) : List String → List RBtn
  | [] => []
  | t :: rest => page t ++ rCandidates page rest

/-- The button-search loop of `process_server`: for each target text, take
the first element that is both visible and enabled; stop at the first
text that yields one. -/
def rFindButton (page : String → List RBtn) : List String → Option RBtn
  | [] => none
  | t :: rest =>
    match (page t).find? (fun b => b.visible && b.enabled) with
    | some b => some b
    | none => rFindButton page rest

def success_words : List String := ["Success", "completed", "완료", "성공"]

def fail_keywords : List String := ["already", "이미", "cool down", "limit", "error", "failed"]

/-- Result analysis of `process_server` (step 4): the swal dialog's
visible success icon or a success word wins first, then the specific
cooldown sentence, then the generic failure keywords, then a non-empty
feedback text is "unknown result" and an empty one is "no feedback".
Returns the `(status, msg)` pair stored in the report row. -/
def rAnalyze (swalSuccessVisible : Bool) (fullText : String) : String × String :=
  if swalSuccessVisible || success_words.any (fun s => pyIn s fullText) then
    ("✅ 成功", "Renewed")
  else if pyIn "아직 서버를 갱신할 수 없습니다" fullText then
    ("⏳ 冷却中", "Wait (Too Early)")
  else if fail_keywords.any (fun f => pyIn f (pyLower fullText)) then
    ("⏳ 其他限制", pyTruncate 15 fullText)
  else if fullText ≠ "" then
    ("❓ 未知结果", pyTruncate 20 fullText)
  else
    ("❓ 无响应", "No Feedback")

/-- Number of clicks attempted on the renew button by `process_server`:
the single `btn.click()` statement runs exactly when the search found a
button. -/
def rClickCount (page : String → List RBtn) : Nat :=
  match rFindButton page target_texts with
  | none => 0
  | some _ => 1

/-- Body of `process_server` after a successful navigation: the login
check, the button search (returning the "no button" row when nothing
visible-and-enabled matches), then click, confirm handling and result
analysis. -/
def rProcessBody (loggedOut : Bool) (page : String → List RBtn)
    (swalSuccessVisible : Bool) (fullText : String) : String × String :=
  if loggedOut then ("❌ 掉线", "需重新登录")
  else
    match rFindButton page target_texts with
    | none => ("❌ 无按钮", "Button Not Found")
    | some _ => rAnalyze swalSuccessVisible fullText

/-- `RenewBot.process_server` seen from the run loop: the whole body is
wrapped in `try ... except Exception`, so each target either yields the
row computed by the body (oracle `Except.ok`) or, when an exception
escapes, the `💥 出错` row with the truncated exception text.  The row is
`(id, status, msg)` with the id derived before the `try`. -/
def renewProcessServer (proc : String → Except String (String × String))
    (u : String) : String × String × String :=
  match proc u with
  | Except.ok r => (sid u, r.1, r.2)
  | Except.error e => (sid u, "💥 出错", pyTruncate 20 e)

/-- The per-target loop of `RenewBot.run`: every URL is processed and its
row appended. -/
def renewRows (proc : String → Except String (String × String))
    (urls : List String) : List (String × String × String) :=
  urls.map (renewProcessServer proc)

/-- `RenewBot.run`: exit 1 when `SERVER_URLS` is empty (before any report
is written), exit 1 when login fails (before any report is written),
otherwise process every URL, write the README report from the rows and
finish with exit code 0.  Result: `(exit code, report rows if written)`. -/
def renewRun (raw : String) (loginOk : Bool)
    (proc : String → Except String (String × String)) :
    Nat × Option (List (String × String × String)) :=
  let sstr := String.mk (pyStripChars Char.isWhitespace raw.data)
  if sstr = "" then (1, none)
  else if loginOk = false then (1, none)
  else (0, some (renewRows proc (parse_server_list sstr)))

/-! ## `weirdhost.py` — `_renew_server` and the run loop

The server page is abstracted as an oracle from a button selector to
`Except Unit (List WElem)`: the matched elements in document order, or
`Except.error ()` when processing that selector raised (the per-selector
`except` then moves on to the next selector). -/

structure WElem where
  visible : Bool
  /-- result of `is_enabled(timeout=3000)`; `Except.error ()` models the
  call raising, in which case the code's `except: pass` proceeds to the
  click. -/
  enabled : Except Unit Bool
  /-- whether the scroll-and-click block raises. -/
  clickRaises : Bool

/-- The selector priority list of `_renew_server`, with the two button
texts substituted. -/
def button_selectors : List String :=
  ["button:has-text(\"시간 추가\")",
   "button:has-text(\"시간추가\")",
   "a:has-text(\"시간 추가\")",
   "a:has-text(\"시간추가\")",
   "button:text(\"시간 추가\")",
   "//*[contains(text(), \"시간 추가\")]"]

/-- All candidate elements in scan order: selectors in priority order and,
within a selector, elements in document order; a selector whose scan
raised contributes nothing. -/
def candidateElems (page : String → Except Unit (List WElem)) :
    List String → List WElem
  | [] => []
  | s :: rest =>
    (match page s with
     | Except.ok els => els
     | Except.error _ => []) ++ candidateElems page rest

/-- The button-search loop of `_renew_server`: first visible element of
the first selector that has one. -/
def wFindButton (page : String → Except Unit (List WElem)) :
    List String → Option WElem
  | [] => none
  | s :: rest =>
    match page s with
    | Except.error _ => wFindButton page rest
    | Except.ok els =>
      match els.find? (fun e => e.visible) with
      | some e => some e
      | none => wFindButton page rest

/-- Navigation phase of `_renew_server`: `_safe_goto` either succeeds or
fails; on failure the code distinguishes a Cloudflare challenge, a lost
login, and a plain navigation failure. -/
inductive WNav
  | navFail (cf : Bool) (loggedIn : Bool)
  | navOk

/-- `WeirdhostRenew._renew_server` after the id derivation, returning the
status written into the `id:status` result together with the number of
clicks attempted on the renew button. -/
def wRenewServer (nav : WNav) (page : String → Except Unit (List WElem))
    (detectPage : String → Except Unit Bool) : String × Nat :=
  match nav with
  | WNav.navFail cf loggedIn =>
    (if cf then STATUS_CF_BLOCKED
     else if !loggedIn then STATUS_LOGIN_LOST
     else STATUS_NAV_FAILED, 0)
  | WNav.navOk =>
    match wFindButton page button_selectors with
    | none => (STATUS_NO_BUTTON, 0)
    | some e =>
      match e.enabled with
      | Except.ok false => (STATUS_ALREADY_RENEWED, 0)
      | _ =>
        if e.clickRaises then (STATUS_RUNTIME_ERROR, 1)
        else (detect_click_result detectPage, 1)

/-- The per-server loop inside `WeirdhostRenew.run`'s `try` block: each
target either yields a status (appended as a row) or raises, which leaves
the loop and lands in the run-level `except` handler.  Returns the
accumulated rows and whether an exception escaped. -/
def whLoopAux (proc : String → Except Unit String) :
    List String → List (String × String) → List (String × String) × Bool
  | [], acc => (acc, false)
  | u :: rest, acc =>
    match proc u with
    | Except.ok st => whLoopAux proc rest (acc ++ [(sid u, st)])
    | Except.error _ => (acc, true)

/-- `WeirdhostRenew.run` as a list of `(id, status)` rows: the empty-list
check, the credential check, browser/login setup (`Except.error ()` when
an exception is raised there, `Except.ok false` when both login paths
fail), then the per-server loop; when an exception escaped the loop the
handler substitutes a `runtime_error` row for every server only if no row
had been recorded yet. -/
def whRunRows (serverList : List String) (hasCreds : Bool)
    (setup : Except Unit Bool) (proc : String → Except Unit String) :
    List (String × String) :=
  if serverList.isEmpty then [("none", STATUS_NO_SERVERS)]
  else if !hasCreds then serverList.map (fun u => (sid u, STATUS_LOGIN_FAILED))
  else
    match setup with
    | Except.error _ => serverList.map (fun u => (sid u, STATUS_RUNTIME_ERROR))
    | Except.ok false => serverList.map (fun u => (sid u, STATUS_LOGIN_FAILED))
    | Except.ok true =>
      match whLoopAux proc serverList [] with
      | (res, false) => res
      | (res, true) =>
        if res.isEmpty then serverList.map (fun u => (sid u, STATUS_RUNTIME_ERROR))
        else res

/-! ## `weirdhost.py` — report and exit code -/

/-- Row formatting in `_renew_server` / `run`: `f"{server_id}:{status}"`. -/
def fmtRow (r : String × String) : String :=
  r.1 ++ ":" ++ r.2

/-- `result.split(':', 1)[0]` with the `"unknown"` fallback of
`print_summary`. -/
def rowIdOf (row : String) : String :=
  String.mk (pySplitOnce ':' row.data).1

/-- `result.split(':', 1)[1]` with the `"unknown"` fallback used when the
row contains no colon. -/
def rowStatus (row : String) : String :=
  match (pySplitOnce ':' row.data).2 with
  | none => "unknown"
  | some st => String.mk st

/-- membership test of `print_summary`:
`status in (STATUS_SUCCESS, STATUS_ALREADY_RENEWED)`. -/
def statusIsOk (st : String) : Bool :=
  st == STATUS_SUCCESS || st == STATUS_ALREADY_RENEWED

/-- `fail_count` computed by `print_summary`. -/
def failCount (results : List String) : Nat :=
  (results.filter (fun r => !statusIsOk (rowStatus r))).length

/-- `print_summary` returns `fail_count == 0`. -/
def print_summary (results : List String) : Bool :=
  failCount results == 0

/-- `main`: `sys.exit(0)` when `print_summary` reported all ok, else
`sys.exit(1)`.  Takes the run's `(id, status)` rows and formats them the
way `_renew_server` does. -/
def mainExitCode (rows : List (String × String)) : Nat :=
  if print_summary (rows.map fmtRow) then 0 else 1

/-- The per-status human-readable message of `update_readme`. -/
def wStatusMessage (st : String) : String :=
  if st == STATUS_SUCCESS then "✅ 续期成功"
  else if st == STATUS_ALREADY_RENEWED then "ℹ️ 今日已续期 / 按钮不可用"
  else if st == STATUS_NO_BUTTON then "❌ 未找到续期按钮"
  else if st == STATUS_LOGIN_FAILED then "❌ 登录失败"
  else if st == STATUS_LOGIN_LOST then "❌ 访问服务器时登录丢失"
  else if st == STATUS_CF_BLOCKED then "🛡️ 被 Cloudflare 防护拦截"
  else if st == STATUS_NAV_FAILED then "❌ 页面导航失败"
  else if st == STATUS_RUNTIME_ERROR then "💥 运行时错误"
  else if st == STATUS_NO_SERVERS then "⚙️ 未配置服务器列表"
  else "❓ 未知状态 (" ++ st ++ ")"

/-- The table rows `| id | message |` written by `update_readme`, as
`(id, message)` pairs. -/
def update_readme_rows (results : List String) : List (String × String) :=
  results.map (fun r => (rowIdOf r, wStatusMessage (rowStatus r)))

/-! ## `weirdhost.py` — `_wait_for_cf`

Time is modelled discretely: `ch k` tells whether `_is_cf_challenge`
reports a challenge at the k-th poll, `dur k` is the wall-clock duration
of the k-th loop iteration (detection work, the opportunistic Turnstile
click, and the `time.sleep(3)` calls), and the loop guard compares the
elapsed time to the timeout exactly as `while time.time() - start <
timeout` does.  The result is `(true, elapsed)` when the challenge was
observed clear and `(false, elapsed)` on timeout; `none` only when the
structural fuel runs out. -/

def waitForCfAux (ch : Nat → Bool) (dur : Nat → Nat) (timeout : Nat) :
    Nat → Nat → Nat → Option (Bool × Nat)
  | 0, _, _ => none
  | fuel + 1, k, t =>
    if t < timeout then
      if ch k then waitForCfAux ch dur timeout fuel (k + 1) (t + dur k)
      else some (true, t)
    else some (false, t)

/-- `_wait_for_cf`, started at poll 0 and elapsed time 0. -/
def wait_for_cf (ch : Nat → Bool) (dur : Nat → Nat) (timeout fuel : Nat) :
    Option (Bool × Nat) :=
  waitForCfAux ch dur timeout fuel 0 0

/-! ## Helper lemmas -/

theorem find_q_append {α : Type} (p : α → Bool) (l₁ l₂ : List α) :
    (l₁ ++ l₂).find? p =
      (match l₁.find? p with
       | some a => some a
       | none => l₂.find? p) := by
  induction l₁ with
  | nil => simp
  | cons a t ih =>
    cases h : p a with
    | true => simp [List.find?_cons, h]
    | false => simp [List.find?_cons, h, ih]

/-- The weirdhost button search returns exactly the first visible element
in the deterministic scan order (selector priority first, document order
within a selector). -/
theorem wFindButton_eq_first (page : String → Except Unit (List WElem))
    (sels : List String) :
    wFindButton page sels = (candidateElems page sels).find? (fun e => e.visible) := by
  induction sels with
  | nil => rfl
  | cons s rest ih =>
    cases hp : page s with
    | error u => simp [wFindButton, candidateElems, hp, ih]
    | ok els =>
      simp only [wFindButton, candidateElems, hp]
      rw [find_q_append]
      cases hf : els.find? (fun e => e.visible) <;> simp [hf, ih]

/-- The renew button search returns exactly the first visible-and-enabled
element in the deterministic scan order. -/
theorem rFindButton_eq_first (page : String → List RBtn) (texts : List String) :
    rFindButton page texts =
      (rCandidates page texts).find? (fun b => b.visible && b.enabled) := by
  induction texts with
  | nil => rfl
  | cons t rest ih =>
    simp only [rFindButton, rCandidates]
    rw [find_q_append]
    cases hf : (page t).find? (fun b => b.visible && b.enabled) <;> simp [hf, ih]

/-- If no element on the page is both visible and enabled, the renew
button search fails. -/
theorem rFindButton_none (page : String → List RBtn) (texts : List String)
    (h : ∀ t, (page t).all (fun b => !(b.visible && b.enabled)) = true) :
    rFindButton page texts = none := by
  induction texts with
  | nil => rfl
  | cons t rest ih =>
    have hnone : (page t).find? (fun b => b.visible && b.enabled) = none := by
      rw [List.find?_eq_none]
      intro b hb
      have hb1 := (List.all_eq_true.mp (h t)) b hb
      cases hx : (b.visible && b.enabled) with
      | false => simp [hx]
      | true => rw [hx] at hb1; exact absurd hb1 (by simp)
    simp [rFindButton, hnone, ih]

/-- The id component of a renew row is the derived server id, whether or
not the target's processing raised. -/
theorem renewProcessServer_fst (proc : String → Except String (String × String))
    (u : String) : (renewProcessServer proc u).1 = sid u := by
  cases h : proc u <;> simp [renewProcessServer, h]

/-- When no target's processing raises, the weirdhost per-server loop
reports every target, in order, appended to the accumulator. -/
theorem whLoopAux_ids (proc : String → Except Unit String) (l : List String) :
    ∀ acc : List (String × String),
      (∀ u ∈ l, ∃ st, proc u = Except.ok st) →
      (whLoopAux proc l acc).2 = false ∧
      (whLoopAux proc l acc).1.map Prod.fst = acc.map Prod.fst ++ l.map sid := by
  induction l with
  | nil => intro acc _; simp [whLoopAux]
  | cons u rest ih =>
    intro acc h
    obtain ⟨st, hst⟩ := h u (List.mem_cons_self u rest)
    have ih' := ih (acc ++ [(sid u, st)])
      (fun v hv => h v (List.mem_cons_of_mem _ hv))
    refine ⟨?_, ?_⟩
    · simpa [whLoopAux, hst] using ih'.1
    · have := ih'.2
      simp [whLoopAux, hst, this]

theorem string_data_append (s t : String) : (s ++ t).data = s.data ++ t.data := by
  cases s; cases t; rfl

theorem pySplitOnce_no_sep (sep : Char) (a b : List Char) (h : sep ∉ a) :
    pySplitOnce sep (a ++ sep :: b) = (a, some b) := by
  induction a with
  | nil => simp [pySplitOnce]
  | cons c t ih =>
    have hc : ¬ c = sep := fun he => h (he ▸ List.mem_cons_self c t)
    have ih' := ih (fun hm => h (List.mem_cons_of_mem c hm))
    simp [pySplitOnce, hc, ih']

/-- Parsing a formatted row whose id contains no colon recovers the
status. -/
theorem rowStatus_fmtRow (r : String × String) (h : ':' ∉ r.1.data) :
    rowStatus (fmtRow r) = r.2 := by
  have hdata : (fmtRow r).data = r.1.data ++ ':' :: r.2.data := by
    simp [fmtRow, string_data_append]
  rw [rowStatus, hdata, pySplitOnce_no_sep ':' r.1.data r.2.data h]

/-- The timeout behaviour of the `_wait_for_cf` loop: with the challenge
never clearing, iteration durations positive and bounded by `poll`, and
enough fuel, the loop returns the timed-out result at an elapsed time `t`
with `timeout ≤ t < timeout + poll`, provided the starting elapsed time
respects the invariant. -/
theorem waitForCfAux_timeout (ch : Nat → Bool) (dur : Nat → Nat)
    (timeout poll : Nat) (hch : ∀ k, ch k = true)
    (hdur : ∀ k, 1 ≤ dur k ∧ dur k ≤ poll) :
    ∀ (fuel k t : Nat), t < timeout + poll → timeout - t < fuel →
      ∃ t', waitForCfAux ch dur timeout fuel k t = some (false, t') ∧
        timeout ≤ t' ∧ t' < timeout + poll := by
  intro fuel
  induction fuel with
  | zero => intro k t _ hf; exact absurd hf (Nat.not_lt_zero _)
  | succ fuel ih =>
    intro k t hinv hf
    by_cases hlt : t < timeout
    · have hrec := ih (k + 1) (t + dur k)
        (by have := (hdur k).2; omega)
        (by have := (hdur k).1; omega)
      obtain ⟨t', ht', hge, hub⟩ := hrec
      refine ⟨t', ?_, hge, hub⟩
      simp [waitForCfAux, hlt, hch k, ht']
    · refine ⟨t, ?_, by omega, hinv⟩
      simp [waitForCfAux, hlt]

/-! ## Claim theorems -/

/-- C10: `_detect_click_result` is total over page states and returns one
of exactly three statuses (`success`, `already_renewed`, `runtime_error`);
when inspecting the feedback surface raises everywhere, the exceptions
are swallowed and the returned outcome is `success`. -/
theorem c10_detect_total_three_statuses :
    (∀ page : String → Except Unit Bool,
      detect_click_result page = STATUS_SUCCESS ∨
      detect_click_result page = STATUS_ALREADY_RENEWED ∨
      detect_click_result page = STATUS_RUNTIME_ERROR) ∧
    detect_click_result (fun _ => Except.error ()) = STATUS_SUCCESS := by
  constructor
  · intro page
    unfold detect_click_result
    by_cases h1 : checkSelectors page success_selectors <;>
      by_cases h2 : checkSelectors page already_selectors <;>
        by_cases h3 : checkSelectors page error_selectors <;>
          simp [h1, h2, h3]
  · rfl

/-- C5: the outcome classifier checks marker categories in the fixed
priority order success, already-done, error, and the first matching
category wins; in particular when a success marker and an error marker
are simultaneously visible the outcome is success (in both scripts). -/
theorem c5_classifier_priority :
    (∀ page : String → Except Unit Bool,
      checkSelectors page success_selectors = true →
      checkSelectors page error_selectors = true →
      detect_click_result page = STATUS_SUCCESS) ∧
    (∀ page : String → Except Unit Bool,
      checkSelectors page success_selectors = false →
      checkSelectors page already_selectors = true →
      detect_click_result page = STATUS_ALREADY_RENEWED) ∧
    (∀ (sv : Bool) (ft : String),
      success_words.any (fun s => pyIn s ft) = true →
      fail_keywords.any (fun f => pyIn f (pyLower ft)) = true →
      rAnalyze sv ft = ("✅ 成功", "Renewed")) := by
  refine ⟨?_, ?_, ?_⟩
  · intro page h1 _
    simp [detect_click_result, h1]
  · intro page h1 h2
    simp [detect_click_result, h1, h2]
  · intro sv ft h1 _
    simp [rAnalyze, h1]

/-- C5 witness: a page showing `.swal2-success` and `.swal2-error`
markers at the same time classifies as success; a renew.py feedback text
containing both a success word and an error keyword classifies as 成功. -/
theorem c5_classifier_priority_witness :
    checkSelectors (fun s => Except.ok (s == ".swal2-success" || s == ".swal2-error"))
      success_selectors = true ∧
    checkSelectors (fun s => Except.ok (s == ".swal2-success" || s == ".swal2-error"))
      error_selectors = true ∧
    detect_click_result (fun s => Except.ok (s == ".swal2-success" || s == ".swal2-error")) =
      STATUS_SUCCESS ∧
    rAnalyze false "Success error" = ("✅ 成功", "Renewed") :=
  ⟨by decide, by decide,
   c5_classifier_priority.1 _ (by decide) (by decide),
   c5_classifier_priority.2.2 false "Success error" (by decide) (by decide)⟩

/-- C6 counterexample: renew.py's classifier does not default to success.
A target whose action was performed (a visible, enabled button was found
and clicked) and whose feedback surface shows no success, cooldown or
error marker (empty feedback text, no success icon) yields the
"no feedback" row, not the success row. -/
theorem c6_counterexample :
    rProcessBody false (fun _ => [⟨true, true⟩]) false "" = ("❓ 无响应", "No Feedback") ∧
    ("❓ 无响应" : String) ≠ "✅ 成功" := by
  exact ⟨rfl, by decide⟩

/-- C6 (amended): `weirdhost.py`'s classifier returns `success` when no
success, already-done or error marker matches; `renew.py`'s classifier
instead returns the unknown-result row for non-empty feedback and the
no-feedback row for empty feedback, never defaulting to success. -/
theorem c6_default_outcome :
    (∀ page : String → Except Unit Bool,
      checkSelectors page success_selectors = false →
      checkSelectors page already_selectors = false →
      checkSelectors page error_selectors = false →
      detect_click_result page = STATUS_SUCCESS) ∧
    (∀ ft : String,
      success_words.any (fun s => pyIn s ft) = false →
      pyIn "아직 서버를 갱신할 수 없습니다" ft = false →
      fail_keywords.any (fun f => pyIn f (pyLower ft)) = false →
      rAnalyze false ft =
        (if ft = "" then ("❓ 无响应", "No Feedback")
         else ("❓ 未知结果", pyTruncate 20 ft))) := by
  constructor
  · intro page h1 h2 h3
    simp [detect_click_result, h1, h2, h3]
  · intro ft h1 h2 h3
    unfold rAnalyze
    rw [Bool.false_or, h1, h2, h3]
    by_cases he : ft = ""
    · subst he
      simp
    · simp [he]

/-- C6 witness: a weirdhost page with every marker absent classifies as
success, and a renew.py feedback text matching nothing classifies as
unknown. -/
theorem c6_default_outcome_witness :
    detect_click_result (fun _ => Except.ok false) = STATUS_SUCCESS ∧
    rAnalyze false "zzz" = ("❓ 未知结果", pyTruncate 20 "zzz") := by
  constructor
  · exact c6_default_outcome.1 _ rfl rfl rfl
  · have h := c6_default_outcome.2 "zzz" (by decide) (by decide) (by decide)
    simpa using h

/-- C4 counterexample: in renew.py the button search skips disabled
elements, so a target whose action element is found (present and visible)
but reported disabled yields the "no button" (action-unavailable) row,
not the already-done/cooldown outcome. -/
theorem c4_counterexample :
    rProcessBody false (fun _ => [⟨true, false⟩]) false "" = ("❌ 无按钮", "Button Not Found") ∧
    ("❌ 无按钮" : String) ≠ "⏳ 冷却中" ∧
    ("❌ 无按钮" : String) ≠ "⏳ 其他限制" ∧
    ("❌ 无按钮" : String) ≠ "✅ 成功" := by
  exact ⟨rfl, by decide, by decide, by decide⟩

/-- C4 (amended): in `weirdhost.py` a found-but-disabled action element
yields `already_renewed` (not success, not no-button); in `renew.py`
disabled elements are skipped during the search, so a target whose
matching elements are all unusable (in particular: found but disabled)
yields the button-not-found row instead. -/
theorem c4_disabled_outcome :
    (∀ (page : String → Except Unit (List WElem)) (dp : String → Except Unit Bool)
        (e : WElem),
      wFindButton page button_selectors = some e →
      e.enabled = Except.ok false →
      (wRenewServer WNav.navOk page dp).1 = STATUS_ALREADY_RENEWED ∧
      (wRenewServer WNav.navOk page dp).1 ≠ STATUS_SUCCESS ∧
      (wRenewServer WNav.navOk page dp).1 ≠ STATUS_NO_BUTTON) ∧
    (∀ (page : String → List RBtn) (sv : Bool) (ft : String),
      (∀ t, (page t).all (fun b => !(b.visible && b.enabled)) = true) →
      rProcessBody false page sv ft = ("❌ 无按钮", "Button Not Found")) := by
  constructor
  · intro page dp e hfind hen
    have hres : wRenewServer WNav.navOk page dp = (STATUS_ALREADY_RENEWED, 0) := by
      simp [wRenewServer, hfind, hen]
    rw [hres]
    exact ⟨rfl, by decide, by decide⟩
  · intro page sv ft hall
    simp [rProcessBody, rFindButton_none page target_texts hall]

/-- C4 witness: a weirdhost page whose first selector matches one visible
element with `is_enabled() = False` ends in `already_renewed`; a renew.py
page whose elements are never visible-and-enabled ends in the no-button
row. -/
theorem c4_disabled_outcome_witness :
    (wRenewServer WNav.navOk (fun _ => Except.ok [⟨true, Except.ok false, false⟩])
        (fun _ => Except.ok false)).1 = STATUS_ALREADY_RENEWED ∧
    rProcessBody false (fun _ => [⟨false, true⟩]) true "ok" = ("❌ 无按钮", "Button Not Found") :=
  ⟨(c4_disabled_outcome.1 (fun _ => Except.ok [⟨true, Except.ok false, false⟩])
      (fun _ => Except.ok false) ⟨true, Except.ok false, false⟩ rfl rfl).1,
   c4_disabled_outcome.2 (fun _ => [⟨false, true⟩]) true "ok" (fun _ => rfl)⟩

/-- C9: per target, at most one state-changing click on the action
element is attempted per run, and the element chosen is the first visible
match in the deterministic scan order (selector priority first, document
order within a selector); renew.py additionally requires the element to
be enabled.  Holds for both scripts. -/
theorem c9_single_click_first_match :
    (∀ page : String → Except Unit (List WElem),
      wFindButton page button_selectors =
        (candidateElems page button_selectors).find? (fun e => e.visible)) ∧
    (∀ (nav : WNav) (page : String → Except Unit (List WElem))
        (dp : String → Except Unit Bool),
      (wRenewServer nav page dp).2 ≤ 1) ∧
    (∀ page : String → List RBtn,
      rFindButton page target_texts =
        (rCandidates page target_texts).find? (fun b => b.visible && b.enabled)) ∧
    (∀ page : String → List RBtn, rClickCount page ≤ 1) := by
  refine ⟨fun page => wFindButton_eq_first page button_selectors, ?_,
          fun page => rFindButton_eq_first page target_texts, ?_⟩
  · intro nav page dp
    cases nav with
    | navFail cf li => simp [wRenewServer]
    | navOk =>
      unfold wRenewServer
      cases h : wFindButton page button_selectors with
      | none => simp
      | some e =>
        cases he : e.enabled with
        | ok b => cases b <;> cases hc : e.clickRaises <;> simp [he, hc]
        | error u => cases hc : e.clickRaises <;> simp [he, hc]
  · intro page
    unfold rClickCount
    cases h : rFindButton page target_texts <;> simp

/-- C3: with the challenge signal never clearing, `_wait_for_cf` returns
the timed-out result (`false`) at an elapsed time of at least the
configured deadline and strictly less than the deadline plus one poll
interval (the bound on a single loop iteration's duration). -/
theorem c3_gate_timeout_bounds (ch : Nat → Bool) (dur : Nat → Nat)
    (timeout poll fuel : Nat)
    (hch : ∀ k, ch k = true)
    (hdur : ∀ k, 1 ≤ dur k ∧ dur k ≤ poll)
    (hfuel : timeout < fuel) :
    ∃ t, wait_for_cf ch dur timeout fuel = some (false, t) ∧
      timeout ≤ t ∧ t < timeout + poll := by
  have hpoll : 1 ≤ poll := le_trans (hdur 0).1 (hdur 0).2
  exact waitForCfAux_timeout ch dur timeout poll hch hdur fuel 0 0
    (by omega) (by omega)

/-- C3 witness: a permanently-challenged page with 3-second iterations
and the script's 120-second deadline times out between 120 and 123
seconds of elapsed time. -/
theorem c3_gate_timeout_bounds_witness :
    (∀ k : Nat, (fun _ : Nat => true) k = true) ∧
    (∃ t, wait_for_cf (fun _ => true) (fun _ => 3) CF_WAIT_TIMEOUT 121 = some (false, t) ∧
      CF_WAIT_TIMEOUT ≤ t ∧ t < CF_WAIT_TIMEOUT + 3) :=
  ⟨fun _ => rfl,
   c3_gate_timeout_bounds (fun _ => true) (fun _ => 3) CF_WAIT_TIMEOUT 3 121
     (fun _ => rfl) (fun _ => ⟨(by decide : (1 : Nat) ≤ 3), (by decide : (3 : Nat) ≤ 3)⟩)
     (by decide)⟩

/-- For a non-empty server list with credentials and a successful login,
`WeirdhostRenew.run` reduces to the per-server loop followed by the
run-level exception handler. -/
theorem whRunRows_loop (urls : List String) (proc : String → Except Unit String)
    (hne : urls ≠ []) :
    whRunRows urls true (Except.ok true) proc =
      (match whLoopAux proc urls [] with
       | (res, false) => res
       | (res, true) =>
         if res.isEmpty then urls.map (fun u => (sid u, STATUS_RUNTIME_ERROR))
         else res) := by
  cases urls with
  | nil => exact absurd rfl hne
  | cons u rest => rfl

/-- C1 counterexample: in `weirdhost.py`, an exception escaping the second
target's processing aborts the loop after one recorded row, so a 2-target
run produces a 1-row report — not one row per input target. -/
theorem c1_counterexample :
    whRunRows ["https://hub.weirdhost.xyz/server/a", "https://hub.weirdhost.xyz/server/b"]
        true (Except.ok true)
        (fun u => if u == "https://hub.weirdhost.xyz/server/b" then Except.error ()
                  else Except.ok STATUS_SUCCESS) =
      [("a", STATUS_SUCCESS)] ∧
    ([("a", STATUS_SUCCESS)] : List (String × String)).length ≠
      ["https://hub.weirdhost.xyz/server/a", "https://hub.weirdhost.xyz/server/b"].length := by
  exact ⟨rfl, by decide⟩

/-- C1 (amended): the final report contains exactly one outcome row per
input target, in input order, unconditionally in `renew.py` (whose
per-target handler is total) and in `weirdhost.py` whenever no exception
escapes an individual target's processing; a mid-run escaping exception
in `weirdhost.py` instead truncates the report to the already-completed
targets (or replaces it with all-`runtime_error` rows when none had
completed). -/
theorem c1_one_row_per_target :
    (∀ (proc : String → Except String (String × String)) (urls : List String),
      (renewRows proc urls).map (fun r => r.1) = urls.map sid ∧
      (renewRows proc urls).length = urls.length) ∧
    (∀ (proc : String → Except Unit String) (urls : List String),
      urls ≠ [] →
      (∀ u ∈ urls, ∃ st, proc u = Except.ok st) →
      (whRunRows urls true (Except.ok true) proc).map Prod.fst = urls.map sid) := by
  constructor
  · intro proc urls
    constructor
    · unfold renewRows
      induction urls with
      | nil => rfl
      | cons u rest ih => simp only [List.map_cons, renewProcessServer_fst, ih]
    · simp [renewRows]
  · intro proc urls hne h
    rw [whRunRows_loop urls proc hne]
    obtain ⟨hflag, hmap⟩ := whLoopAux_ids proc urls [] h
    cases hw : whLoopAux proc urls [] with
    | mk res flag =>
      rw [hw] at hflag hmap
      simp only at hflag hmap
      subst hflag
      simpa using hmap

/-- C1 witness: a 1-target renew.py run and a 2-target weirdhost.py run
with no escaping exceptions report exactly the derived ids, in order. -/
theorem c1_one_row_per_target_witness :
    (renewRows (fun _ => Except.ok ("✅ 成功", "Renewed"))
        ["https://hub.weirdhost.xyz/server/w1"]).map (fun r => r.1) = ["w1"] ∧
    (whRunRows ["https://hub.weirdhost.xyz/server/w1", "https://hub.weirdhost.xyz/server/w2"]
        true (Except.ok true) (fun _ => Except.ok STATUS_SUCCESS)).map Prod.fst =
      ["w1", "w2"] := by
  constructor
  · have h := (c1_one_row_per_target.1 (fun _ => Except.ok ("✅ 成功", "Renewed"))
      ["https://hub.weirdhost.xyz/server/w1"]).1
    rw [h]
    rfl
  · have h := c1_one_row_per_target.2 (fun _ => Except.ok STATUS_SUCCESS)
      ["https://hub.weirdhost.xyz/server/w1", "https://hub.weirdhost.xyz/server/w2"]
      (by decide) (fun u _ => ⟨STATUS_SUCCESS, rfl⟩)
    rw [h]
    rfl

/-- C2 counterexample: in `weirdhost.py` the exception handler sits around
the whole loop, not at the per-target boundary.  With three targets where
the second raises, the run stops: the second target is not converted to a
transient-error row and the third is never processed. -/
theorem c2_counterexample :
    whRunRows ["https://hub.weirdhost.xyz/server/ca", "https://hub.weirdhost.xyz/server/cb",
               "https://hub.weirdhost.xyz/server/cc"]
        true (Except.ok true)
        (fun u => if u == "https://hub.weirdhost.xyz/server/cb" then Except.error ()
                  else Except.ok STATUS_SUCCESS) =
      [("ca", STATUS_SUCCESS)] ∧
    ("cb", STATUS_RUNTIME_ERROR) ∉ ([("ca", STATUS_SUCCESS)] : List (String × String)) ∧
    ("cc", STATUS_SUCCESS) ∉ ([("ca", STATUS_SUCCESS)] : List (String × String)) := by
  exact ⟨rfl, by decide, by decide⟩

/-- C2 (amended): in `renew.py` any exception raised while processing a
target is caught at the per-target boundary, converted into the `💥 出错`
(transient-error) row for that target, and the run still yields a row for
every target; in `weirdhost.py` the catch is at the run boundary — an
exception before any target completed yields a `runtime_error` row for
every target, and one after a completed target truncates the report. -/
theorem c2_per_target_exception_boundary :
    (∀ (proc : String → Except String (String × String)) (u e : String),
      proc u = Except.error e →
      renewProcessServer proc u = (sid u, "💥 出错", pyTruncate 20 e)) ∧
    (∀ (proc : String → Except String (String × String)) (urls : List String)
        (i : Nat) (u e : String),
      urls[i]? = some u → proc u = Except.error e →
      (renewRows proc urls)[i]? = some (sid u, "💥 出错", pyTruncate 20 e)) ∧
    (∀ (proc : String → Except String (String × String)) (urls : List String),
      (renewRows proc urls).length = urls.length) ∧
    (∀ (proc : String → Except Unit String) (u : String) (rest : List String),
      proc u = Except.error () →
      whRunRows (u :: rest) true (Except.ok true) proc =
        (u :: rest).map (fun v => (sid v, STATUS_RUNTIME_ERROR))) := by
  refine ⟨?_, ?_, ?_, ?_⟩
  · intro proc u e h
    simp [renewProcessServer, h]
  · intro proc urls i u e hu hp
    unfold renewRows
    rw [List.getElem?_map, hu]
    simp [renewProcessServer, hp]
  · intro proc urls
    simp [renewRows]
  · intro proc u rest h
    simp [whRunRows, whLoopAux, h]

/-- C2 witness: a raising target yields the 出错 row in renew.py (also via
the run's row list), and a first-target exception in weirdhost.py yields
runtime_error rows for every target. -/
theorem c2_per_target_exception_boundary_witness :
    renewProcessServer (fun _ => Except.error "boom") "https://hub.weirdhost.xyz/server/z1" =
      ("z1", "💥 出错", pyTruncate 20 "boom") ∧
    (renewRows (fun _ => Except.error "boom") ["https://hub.weirdhost.xyz/server/z1"])[0]? =
      some ("z1", "💥 出错", pyTruncate 20 "boom") ∧
    whRunRows ["https://hub.weirdhost.xyz/server/z2"] true (Except.ok true)
        (fun _ => Except.error ()) = [("z2", STATUS_RUNTIME_ERROR)] := by
  refine ⟨?_, ?_, ?_⟩
  · exact c2_per_target_exception_boundary.1 (fun _ => Except.error "boom")
      "https://hub.weirdhost.xyz/server/z1" "boom" rfl
  · exact c2_per_target_exception_boundary.2.1 (fun _ => Except.error "boom")
      ["https://hub.weirdhost.xyz/server/z1"] 0 "https://hub.weirdhost.xyz/server/z1" "boom"
      rfl rfl
  · exact c2_per_target_exception_boundary.2.2.2 (fun _ => Except.error ())
      "https://hub.weirdhost.xyz/server/z2" [] rfl

/-- C7 counterexample: `renew.py`'s exit code ignores the outcomes.  A run
whose only target ends in the transient-error row still exits 0, while the
claim demands exit code 1 for any outcome other than success/already-done. -/
theorem c7_counterexample :
    renewRun "https://hub.weirdhost.xyz/server/q1" true (fun _ => Except.error "X") =
      (0, some [("q1", "💥 出错", "X")]) ∧
    ("💥 出错" : String) ≠ "✅ 成功" ∧
    ("💥 出错" : String) ≠ "⏳ 冷却中" ∧
    ("💥 出错" : String) ≠ "⏳ 其他限制" := by
  exact ⟨rfl, by decide, by decide, by decide⟩

/-- C7 (amended): in `weirdhost.py` the exit code is 0 iff every row's
outcome is success or already-renewed (provided the derived ids contain no
colon, which the row parser needs), and the no-targets run exits 1; in
`renew.py` the exit code only distinguishes missing configuration or
failed login (1) from a completed run (0) and is independent of the
per-target outcomes. -/
theorem c7_exit_code :
    (∀ rows : List (String × String),
      (∀ p ∈ rows, ':' ∉ p.1.data) →
      (mainExitCode rows = 0 ↔ ∀ p ∈ rows, statusIsOk p.2 = true)) ∧
    (∀ (hc : Bool) (setup : Except Unit Bool) (proc : String → Except Unit String),
      mainExitCode (whRunRows [] hc setup proc) = 1) ∧
    (∀ (raw : String) (proc : String → Except String (String × String)),
      String.mk (pyStripChars Char.isWhitespace raw.data) ≠ "" →
      (renewRun raw true proc).1 = 0) := by
  refine ⟨?_, ?_, ?_⟩
  · intro rows hfree
    have hm : mainExitCode rows = 0 ↔ print_summary (rows.map fmtRow) = true := by
      unfold mainExitCode
      by_cases hps : print_summary (rows.map fmtRow) = true <;> simp [hps]
    have hp2 : print_summary (rows.map fmtRow) = true ↔
        ∀ r ∈ rows.map fmtRow, statusIsOk (rowStatus r) = true := by
      unfold print_summary failCount
      rw [beq_iff_eq, List.length_eq_zero, List.filter_eq_nil_iff]
      constructor
      · intro h r hr
        have h2 := h r hr
        cases hx : statusIsOk (rowStatus r) with
        | true => rfl
        | false => exact absurd (by simp [hx]) h2
      · intro h r hr
        simp [h r hr]
    have key : (∀ r ∈ rows.map fmtRow, statusIsOk (rowStatus r) = true) ↔
        (∀ p ∈ rows, statusIsOk p.2 = true) := by
      constructor
      · intro h p hp
        have := h (fmtRow p) (List.mem_map_of_mem _ hp)
        rwa [rowStatus_fmtRow p (hfree p hp)] at this
      · intro h r hr
        obtain ⟨p, hp, rfl⟩ := List.mem_map.mp hr
        rw [rowStatus_fmtRow p (hfree p hp)]
        exact h p hp
    rw [hm, hp2, key]
  · intro hc setup proc
    exact (by decide : mainExitCode [("none", STATUS_NO_SERVERS)] = 1)
  · intro raw proc h
    simp [renewRun, h]

/-- C7 witness: an all-success weirdhost report exits 0, and a renew.py
run that completes with a failing target still exits 0. -/
theorem c7_exit_code_witness :
    (∀ p ∈ ([("w7", STATUS_SUCCESS)] : List (String × String)), ':' ∉ p.1.data) ∧
    mainExitCode [("w7", STATUS_SUCCESS)] = 0 ∧
    (renewRun "https://hub.weirdhost.xyz/server/w7" true
        (fun _ => Except.ok ("⏳ 冷却中", "w"))).1 = 0 := by
  refine ⟨by decide, ?_, ?_⟩
  · exact (c7_exit_code.1 [("w7", STATUS_SUCCESS)] (by decide)).mpr (by decide)
  · exact c7_exit_code.2.2 "https://hub.weirdhost.xyz/server/w7" _ (by decide)

/-- C8 counterexample: a `renew.py` run with an empty target list exits
before any report is written — no artifact states that no targets were
configured. -/
theorem c8_counterexample :
    renewRun "" true (fun _ => Except.ok ("✅ 成功", "Renewed")) = (1, none) := by
  rfl

/-- C8 (amended): on an empty target list both scripts exit non-zero;
`weirdhost.py` additionally writes the report with the single
"no servers configured" row, while `renew.py` produces no report at all. -/
theorem c8_empty_targets :
    (∀ (hc : Bool) (setup : Except Unit Bool) (proc : String → Except Unit String),
      mainExitCode (whRunRows [] hc setup proc) = 1 ∧
      update_readme_rows ((whRunRows [] hc setup proc).map fmtRow) =
        [("none", "⚙️ 未配置服务器列表")]) ∧
    (∀ (loginOk : Bool) (proc : String → Except String (String × String)),
      renewRun "" loginOk proc = (1, none)) := by
  constructor
  · intro hc setup proc
    exact ⟨(by decide : mainExitCode [("none", STATUS_NO_SERVERS)] = 1),
           (by decide : update_readme_rows ([("none", STATUS_NO_SERVERS)].map fmtRow) =
             [("none", "⚙️ 未配置服务器列表")])⟩
  · intro loginOk proc
    rfl
